import Mathlib

/-!
Shallow embedding of the bearer-token verification gate of `src/server.js`
(the `verifyToken` Express middleware, lines 194-284, together with the
semantics of the `jsonwebtoken` and `jwks-rsa` library calls it makes).

Environment variables are modelled as `Option String` (a missing variable is
`none`).  The remote JWKS key stores, the `jwt.decode` function and the
cryptographic signature check are modelled as components of a `World` record:
`verifyToken` is a pure function of the configuration, the world, the current
clock and the incoming `Authorization` header value.
-/

namespace Server

/-- JWT header fields used by the code: `kid` selects the JWKS key and `alg`
is checked against the allowed algorithm list. -/
structure Header where
  kid : String
  alg : String
deriving DecidableEq

/-- The decoded JWT payload fields that `verifyToken` and the `jsonwebtoken`
verification read.  Absent claims are `none`. -/
structure Claims where
  iss : Option String := none
  aud : Option String := none
  exp : Option Int := none
  nbf : Option Int := none
  oid : Option String := none
  tid : Option String := none
  preferred_username : Option String := none
  upn : Option String := none
  unique_name : Option String := none
  provider : Option String := none
deriving DecidableEq

/-- A decoded token: header plus payload, as returned by
`jwt.decode(token, { complete: true })`. -/
structure Token where
  header : Header
  claims : Claims
deriving DecidableEq

/-- The environment variables read by `verifyToken` and the JWKS client
construction: `AZURE_AUDIENCE`, `AUTH0_DOMAIN`, `AUTH0_AUDIENCE`,
`AUTH0_CLIENT_ID`.  `none` models an unset variable. -/
structure Config where
  azureAudience : Option String := none
  auth0Domain : Option String := none
  auth0Audience : Option String := none
  auth0ClientId : Option String := none
deriving DecidableEq

/-- The external collaborators of the gate: `decode` is `jwt.decode` (returns
`none` on a malformed token, mirroring a `null` result or falsy payload);
`azureKeys` and `auth0Keys` map a `kid` to the public key returned by the
corresponding `jwks-rsa` client, with `none` modelling a `getSigningKey`
error (unknown `kid`, network failure, malformed key set); `sigValid tok key`
is the cryptographic signature check of the compact token string against a
public key, as performed inside `jwt.verify`. -/
structure World where
  decode : String → Option Token
  azureKeys : String → Option String
  auth0Keys : String → Option String
  sigValid : String → String → Bool

/-- JavaScript truthiness of a possibly-undefined string: `undefined` and the
empty string are falsy. -/
def truthyS : Option String → Bool
  | none => false
  | some s => !(s == "")

/-- JavaScript `a || b` on possibly-undefined strings: returns `a` when `a`
is truthy, otherwise `b`. -/
def jsOrS (a b : Option String) : Option String :=
  if truthyS a then a else b

/-- Whether `pat` is a leading run of the second list (character-wise). -/
def leadEq : List Char → List Char → Bool
  | [], _ => true
  | _ :: _, [] => false
  | a :: as, b :: bs => a == b && leadEq as bs

/-- JavaScript `s.startsWith(pat)`. -/
def strStarts (s pat : String) : Bool := leadEq pat.toList s.toList

/-- Whether `pat` occurs contiguously somewhere in the list. -/
def occursIn (pat : List Char) : List Char → Bool
  | [] => leadEq pat []
  | c :: t => leadEq pat (c :: t) || occursIn pat t

/-- JavaScript `s.includes(pat)`: substring containment. -/
def strHasSub (s pat : String) : Bool := occursIn pat.toList s.toList

/-- Splits a character list at every space, JavaScript `split(" ")` style:
no segment merging, empty segments preserved. -/
def splitSpAux : List Char → List Char → List (List Char)
  | [], acc => [acc.reverse]
  | c :: rest, acc =>
      if c == ' ' then acc.reverse :: splitSpAux rest []
      else splitSpAux rest (c :: acc)

/-- JavaScript `s.split(" ")`. -/
def splitSp (s : String) : List String :=
  (splitSpAux s.toList []).map fun l => ⟨l⟩

/-- The error produced by `jwt.verify` when it rejects a token, in the order
the `jsonwebtoken` library checks: algorithm, signature, `nbf`, `exp`,
audience, issuer. -/
inductive JwtErr where
  | invalidAlgorithm
  | invalidSignature
  | notBefore
  | expired
  | audienceInvalid
  | issuerInvalid
deriving DecidableEq

/-- The spec error taxonomy groups every post-signature claim failure
(expiry, not-before, audience, issuer) under `InvalidClaims`. -/
def isInvalidClaims : JwtErr → Bool
  | .notBefore => true
  | .expired => true
  | .audienceInvalid => true
  | .issuerInvalid => true
  | _ => false

/-- The `nbf` check of `jsonwebtoken`: enforced only when the claim is
present; fails when the clock is before `nbf`. -/
def nbfViolated (c : Claims) (now : Int) : Bool :=
  match c.nbf with
  | some n => decide (now < n)
  | none => false

/-- The `exp` check of `jsonwebtoken`: enforced only when the claim is
present; fails when the clock has reached `exp`. -/
def expViolated (c : Claims) (now : Int) : Bool :=
  match c.exp with
  | some e => decide (e ≤ now)
  | none => false

/-- Model of `jwt.verify(token, key, options, cb)` from the `jsonwebtoken`
library, for the options the code passes (`algorithms`, optionally `audience`
and `issuer`).  Checks in library order: the header algorithm must be in the
allowed list; the signature must verify under `key`; `nbf` and `exp` are
enforced only when the claim is present; the audience check runs only when
`options.audience` is truthy, and the issuer check only when `options.issuer`
is truthy. -/
def jwtVerify (algs : List String) (audOpt issOpt : Option String)
    (tokStr : String) (tok : Token) (key : String)
    (sigValid : String → String → Bool) (now : Int) : Except JwtErr Claims :=
  if !(algs.contains tok.header.alg) then .error .invalidAlgorithm
  else if !(sigValid tokStr key) then .error .invalidSignature
  else if nbfViolated tok.claims now then .error .notBefore
  else if expViolated tok.claims now then .error .expired
  else if truthyS audOpt && !(tok.claims.aud == audOpt) then
    .error .audienceInvalid
  else if truthyS issOpt && !(tok.claims.iss == issOpt) then
    .error .issuerInvalid
  else .ok tok.claims

/-- The Azure branch guard of `verifyToken`: `issuer &&
(issuer.startsWith("https://login.microsoftonline.com/") ||
issuer.startsWith("https://sts.windows.net/"))`. -/
def issuerIsAzure : Option String → Bool
  | none => false
  | some s =>
      !(s == "") &&
        (strStarts s "https://login.microsoftonline.com/" ||
          strStarts s "https://sts.windows.net/")

/-- `process.env.AUTH0_DOMAIN` as JavaScript stringifies it where the code
interpolates or passes it: an unset variable becomes the string
`"undefined"`. -/
def auth0DomainStr (cfg : Config) : String := cfg.auth0Domain.getD "undefined"

/-- The Auth0 branch guard: `issuer?.includes(process.env.AUTH0_DOMAIN)`
(optional chaining skips only an undefined issuer; the argument is coerced to
a string). -/
def issuerIsAuth0 (cfg : Config) : Option String → Bool
  | none => false
  | some s => strHasSub s (auth0DomainStr cfg)

/-- The `issuer` option of the Auth0 `jwt.verify` call:
`` `https://${process.env.AUTH0_DOMAIN}/` ``. -/
def auth0IssuerOption (cfg : Config) : String :=
  "https://" ++ auth0DomainStr cfg ++ "/"

/-- The `audience` option of the Auth0 `jwt.verify` call:
`process.env.AUTH0_AUDIENCE || process.env.AUTH0_CLIENT_ID`. -/
def auth0AudienceOption (cfg : Config) : Option String :=
  jsOrS cfg.auth0Audience cfg.auth0ClientId

/-- The normalized identity attached as `req.user`. -/
inductive User where
  | azure (oid tid email : Option String)
  | auth0 (provider : String) (claims : Claims)
deriving DecidableEq

/-- The email fallback of the Azure identity:
`verified.preferred_username || verified.upn || verified.unique_name`. -/
def azureEmail (c : Claims) : Option String :=
  jsOrS c.preferred_username (jsOrS c.upn c.unique_name)

/-- The observable outcome of one `verifyToken` invocation.  `missingToken`,
`malformedToken`, `unknownIssuer` and `rejected` are the 401 responses
("Missing token", "Invalid token", "Unknown token issuer", "Invalid
Azure/Auth0 token"); `rejected` records the `err` value the verification
callback received; `keyCrash` is the uncaught TypeError thrown when the key
callback dereferences an undefined `key` after a `getSigningKey` error (no
response is sent); `user` means `req.user` was set and `next()` called. -/
inductive Outcome where
  | missingToken
  | malformedToken
  | unknownIssuer
  | keyCrash (provider : String)
  | rejected (provider : String) (e : JwtErr)
  | user (u : User)
deriving DecidableEq

/-- `req.headers.authorization?.split(" ")[1]`. -/
def extractToken (auth : Option String) : Option String :=
  auth.bind fun h => (splitSp h)[1]?

/-- The `verifyToken` middleware of `src/server.js` (lines 208-284). -/
def verifyToken (cfg : Config) (w : World) (now : Int)
    (auth : Option String) : Outcome :=
  match extractToken auth with
  | none => .missingToken
  | some t =>
    if t == "" then .missingToken
    else
      match w.decode t with
      | none => .malformedToken
      | some tok =>
        if issuerIsAzure tok.claims.iss then
          match w.azureKeys tok.header.kid with
          | none => .keyCrash "azure"
          | some key =>
            match jwtVerify ["RS256"] cfg.azureAudience none
                t tok key w.sigValid now with
            | .error e => .rejected "azure" e
            | .ok v => .user (.azure v.oid v.tid (azureEmail v))
        else if issuerIsAuth0 cfg tok.claims.iss then
          match w.auth0Keys tok.header.kid with
          | none => .keyCrash "auth0"
          | some key =>
            match jwtVerify ["RS256"] (auth0AudienceOption cfg)
                (some (auth0IssuerOption cfg)) t tok key w.sigValid now with
            | .error e => .rejected "auth0" e
            | .ok v => .user (.auth0 (v.provider.getD "auth0") v)
        else .unknownIssuer

/-- The HTTP response each outcome produces at the transport boundary
(`none` when no response is sent: a crash, or `next()` proceeding to the
protected handler). -/
def toResponse : Outcome → Option (Nat × String)
  | .missingToken => some (401, "Missing token")
  | .malformedToken => some (401, "Invalid token")
  | .unknownIssuer => some (401, "Unknown token issuer")
  | .keyCrash _ => none
  | .rejected p _ =>
      some (401, if p == "azure" then "Invalid Azure token"
                 else "Invalid Auth0 token")
  | .user _ => none

/-! Concrete configurations, worlds and tokens used to instantiate the
claims on explicit inputs. -/

/-- A well-formed Azure token: sts issuer, matching audience, RS256. -/
def tok1 : Token :=
  { header := { kid := "k1", alg := "RS256" },
    claims := { iss := some "https://sts.windows.net/tenant1/",
                aud := some "api://app1", exp := some 100,
                oid := some "oid1", tid := some "tid1",
                preferred_username := some "alice@contoso.com" } }

/-- A fully configured environment. -/
def cfg1 : Config :=
  { azureAudience := some "api://app1",
    auth0Domain := some "example.auth0.com",
    auth0Audience := some "aud0", auth0ClientId := some "cid0" }

/-- World in which the string "tk1" decodes to `tok1`, the Azure JWKS knows
`k1`, and only "tk1" verifies under that key. -/
def w1 : World :=
  { decode := fun s => if s == "tk1" then some tok1 else none,
    azureKeys := fun k => if k == "k1" then some "PK1" else none,
    auth0Keys := fun _ => none,
    sigValid := fun s k => s == "tk1" && k == "PK1" }

/-- The identity the gate produces for `tok1`. -/
def u1 : User := .azure (some "oid1") (some "tid1") (some "alice@contoso.com")

/-- A valid Azure-signed token whose audience matches nothing configured. -/
def tok2 : Token :=
  { header := { kid := "k2", alg := "RS256" },
    claims := { iss := some "https://sts.windows.net/tenant2/",
                aud := some "completely-unrelated-audience",
                oid := some "oid2", tid := some "tid2" } }

/-- Environment with `AZURE_AUDIENCE` unset. -/
def cfg2 : Config := { auth0Domain := some "example.auth0.com" }

/-- World for `tok2`: its signature verifies under the key for `k2`. -/
def w2 : World :=
  { decode := fun s => if s == "tk2" then some tok2 else none,
    azureKeys := fun k => if k == "k2" then some "PK2" else none,
    auth0Keys := fun _ => none,
    sigValid := fun s k => s == "tk2" && k == "PK2" }

/-- A token whose issuer matches neither Microsoft prefix nor the Auth0
domain. -/
def tok3 : Token :=
  { header := { kid := "k3", alg := "RS256" },
    claims := { iss := some "https://evil.example.com/",
                aud := some "api://app3" } }

/-- Environment with both paths configured. -/
def cfg3 : Config :=
  { azureAudience := some "api://app3",
    auth0Domain := some "example.auth0.com" }

/-- World in which every key resolves and every signature is valid, to show
the issuer check does not depend on signature validity. -/
def w3 : World :=
  { decode := fun s => if s == "tk3" then some tok3 else none,
    azureKeys := fun _ => some "PK3",
    auth0Keys := fun _ => some "PK3",
    sigValid := fun _ _ => true }

/-- An Azure token signed with a `kid` absent from the JWKS. -/
def tok4 : Token :=
  { header := { kid := "k-rotated-away", alg := "RS256" },
    claims := { iss := some "https://sts.windows.net/tenant4/",
                aud := some "api://app4" } }

/-- Environment for the unknown-kid scenario. -/
def cfg4 : Config :=
  { azureAudience := some "api://app4",
    auth0Domain := some "example.auth0.com" }

/-- World whose JWKS lookups all fail (`getSigningKey` returns an error). -/
def w4 : World :=
  { decode := fun s => if s == "tk4" then some tok4 else none,
    azureKeys := fun _ => none,
    auth0Keys := fun _ => none,
    sigValid := fun _ _ => true }

/-- An Azure-routed token whose header declares HS256. -/
def tok5 : Token :=
  { header := { kid := "k5", alg := "HS256" },
    claims := { iss := some "https://sts.windows.net/tenant5/",
                aud := some "api://app5" } }

/-- Environment for the wrong-algorithm scenario. -/
def cfg5 : Config :=
  { azureAudience := some "api://app5",
    auth0Domain := some "example.auth0.com" }

/-- World for `tok5`: key resolves and signatures pass, isolating the
algorithm check. -/
def w5 : World :=
  { decode := fun s => if s == "tk5" then some tok5 else none,
    azureKeys := fun k => if k == "k5" then some "PK5" else none,
    auth0Keys := fun _ => none,
    sigValid := fun _ _ => true }

/-- An Auth0 token that carries no `exp` claim at all. -/
def tok6 : Token :=
  { header := { kid := "k6", alg := "RS256" },
    claims := { iss := some "https://example.auth0.com/",
                aud := some "aud6" } }

/-- Auth0-side environment. -/
def cfg6 : Config :=
  { auth0Domain := some "example.auth0.com", auth0Audience := some "aud6" }

/-- World for `tok6` with a valid signature under the key for `k6`. -/
def w6 : World :=
  { decode := fun s => if s == "tk6" then some tok6 else none,
    azureKeys := fun _ => none,
    auth0Keys := fun k => if k == "k6" then some "PK6" else none,
    sigValid := fun s k => s == "tk6" && k == "PK6" }

/-- An otherwise valid Auth0 token with `exp` in the past. -/
def tok6e : Token :=
  { header := { kid := "k6e", alg := "RS256" },
    claims := { iss := some "https://example.auth0.com/",
                aud := some "aud6", exp := some 50 } }

/-- World for the expired token `tok6e`. -/
def w6e : World :=
  { decode := fun s => if s == "tk6e" then some tok6e else none,
    azureKeys := fun _ => none,
    auth0Keys := fun k => if k == "k6e" then some "PK6e" else none,
    sigValid := fun s k => s == "tk6e" && k == "PK6e" }

/-- A validly signed Azure token with a mismatched audience. -/
def tok7 : Token :=
  { header := { kid := "k7", alg := "RS256" },
    claims := { iss := some "https://login.microsoftonline.com/tenant7/v2.0",
                aud := some "spoofed-audience",
                oid := some "oid7", tid := some "tid7" } }

/-- Environment expecting audience api://app7. -/
def cfg7 : Config :=
  { azureAudience := some "api://app7",
    auth0Domain := some "example.auth0.com" }

/-- World for `tok7` with a valid signature. -/
def w7 : World :=
  { decode := fun s => if s == "tk7" then some tok7 else none,
    azureKeys := fun k => if k == "k7" then some "PK7" else none,
    auth0Keys := fun _ => none,
    sigValid := fun s k => s == "tk7" && k == "PK7" }

/-- A valid Azure token whose `preferred_username` is the empty string while
`upn` and `unique_name` are set. -/
def tok8 : Token :=
  { header := { kid := "k8", alg := "RS256" },
    claims := { iss := some "https://sts.windows.net/tenant8/",
                aud := some "api://app8",
                oid := some "oid8", tid := some "tid8",
                preferred_username := some "",
                upn := some "bob@contoso.com",
                unique_name := some "legacy-name" } }

/-- Environment for the email-fallback scenario. -/
def cfg8 : Config :=
  { azureAudience := some "api://app8",
    auth0Domain := some "example.auth0.com" }

/-- World for `tok8` with a valid signature. -/
def w8 : World :=
  { decode := fun s => if s == "tk8" then some tok8 else none,
    azureKeys := fun k => if k == "k8" then some "PK8" else none,
    auth0Keys := fun _ => none,
    sigValid := fun s k => s == "tk8" && k == "PK8" }

/-- Minimal environment for the header-parsing scenario. -/
def cfg9 : Config := { auth0Domain := some "example.auth0.com" }

/-- World in which no string decodes as a JWT (as for the string "xyz"). -/
def w9 : World :=
  { decode := fun _ => none,
    azureKeys := fun _ => none,
    auth0Keys := fun _ => none,
    sigValid := fun _ _ => false }

/-- A valid Auth0 token that itself carries a `provider` claim. -/
def tokX : Token :=
  { header := { kid := "kX", alg := "RS256" },
    claims := { iss := some "https://example.auth0.com/",
                aud := some "audX", exp := some 500,
                provider := some "pwned" } }

/-- Auth0-side environment for `tokX`. -/
def cfgX : Config :=
  { auth0Domain := some "example.auth0.com", auth0Audience := some "audX" }

/-- World for `tokX` with a valid signature. -/
def wX : World :=
  { decode := fun s => if s == "tkX" then some tokX else none,
    azureKeys := fun _ => none,
    auth0Keys := fun k => if k == "kX" then some "PKX" else none,
    sigValid := fun s k => s == "tkX" && k == "PKX" }

/-! Helper lemmas about the `jwt.verify` model and the two issuer branches
of `verifyToken`. -/

/-- Facts recoverable from a successful `jwtVerify` run: the verified claims
are exactly the decoded claims, the algorithm was in the allowed list, the
signature check passed under the resolved key, a truthy audience or issuer
option was matched, and any `nbf`/`exp` present was satisfied. -/
theorem jwtVerify_ok_facts {algs : List String} {audOpt issOpt : Option String}
    {tokStr : String} {tok : Token} {key : String}
    {sv : String → String → Bool} {now : Int} {v : Claims}
    (h : jwtVerify algs audOpt issOpt tokStr tok key sv now = .ok v) :
    v = tok.claims ∧ algs.contains tok.header.alg = true ∧
    sv tokStr key = true ∧
    (truthyS audOpt = true → tok.claims.aud = audOpt) ∧
    (truthyS issOpt = true → tok.claims.iss = issOpt) ∧
    (∀ n, tok.claims.nbf = some n → ¬ now < n) ∧
    (∀ e, tok.claims.exp = some e → now < e) := by
  unfold jwtVerify at h
  split_ifs at h with h1 h2 h3 h4 h5 h6
  injection h with hv
  subst hv
  simp only [Bool.not_eq_true] at h1 h2
  refine ⟨rfl, by simpa using h1, by simpa using h2, ?_, ?_, ?_, ?_⟩
  · intro ha
    by_contra hne
    exact h5 (by simp [ha, hne])
  · intro hi
    by_contra hne
    exact h6 (by simp [hi, hne])
  · intro n hn hlt
    exact h3 (by simp [nbfViolated, hn, hlt])
  · intro e he
    by_contra hge
    exact h4 (by simp [expViolated, he, Int.not_lt.mp hge])

/-- Conditions under which `jwtVerify` succeeds and returns the decoded
claims. -/
theorem jwtVerify_ok_intro {algs : List String} {audOpt issOpt : Option String}
    {tokStr : String} {tok : Token} {key : String}
    {sv : String → String → Bool} {now : Int}
    (hc : algs.contains tok.header.alg = true) (hs : sv tokStr key = true)
    (hn : nbfViolated tok.claims now = false)
    (hx : expViolated tok.claims now = false)
    (hau : truthyS audOpt = true → tok.claims.aud = audOpt)
    (his : truthyS issOpt = true → tok.claims.iss = issOpt) :
    jwtVerify algs audOpt issOpt tokStr tok key sv now = .ok tok.claims := by
  have hau' : (truthyS audOpt && !(tok.claims.aud == audOpt)) = false := by
    cases hta : truthyS audOpt
    · simp
    · simp [hau hta]
  have his' : (truthyS issOpt && !(tok.claims.iss == issOpt)) = false := by
    cases hti : truthyS issOpt
    · simp
    · simp [his hti]
  unfold jwtVerify
  rw [hc, hs, hn, hx, hau', his']
  rfl

/-- A header algorithm outside the allowed list is rejected first, before
any other check. -/
theorem jwtVerify_alg_reject {algs : List String} {audOpt issOpt : Option String}
    {tokStr : String} {tok : Token} {key : String}
    {sv : String → String → Bool} {now : Int}
    (h : algs.contains tok.header.alg = false) :
    jwtVerify algs audOpt issOpt tokStr tok key sv now =
      .error .invalidAlgorithm := by
  unfold jwtVerify
  rw [h]
  rfl

/-- After algorithm and signature pass, an audience mismatch (with a truthy
audience option) yields a claim-level error. -/
theorem jwtVerify_aud_reject {algs : List String} {audOpt issOpt : Option String}
    {tokStr : String} {tok : Token} {key : String}
    {sv : String → String → Bool} {now : Int}
    (hc : algs.contains tok.header.alg = true) (hs : sv tokStr key = true)
    (ha : truthyS audOpt = true) (hmis : tok.claims.aud ≠ audOpt) :
    ∃ e, jwtVerify algs audOpt issOpt tokStr tok key sv now = .error e ∧
      isInvalidClaims e = true := by
  have haud : (truthyS audOpt && !(tok.claims.aud == audOpt)) = true := by
    simp [ha, hmis]
  unfold jwtVerify
  rw [hc, hs]
  by_cases hn : nbfViolated tok.claims now = true
  · rw [if_neg (by simp), if_neg (by simp), if_pos hn]
    exact ⟨.notBefore, rfl, rfl⟩
  · by_cases hx : expViolated tok.claims now = true
    · rw [if_neg (by simp), if_neg (by simp), if_neg hn, if_pos hx]
      exact ⟨.expired, rfl, rfl⟩
    · rw [if_neg (by simp), if_neg (by simp), if_neg hn, if_neg hx,
        if_pos haud]
      exact ⟨.audienceInvalid, rfl, rfl⟩

/-- After algorithm and signature pass, an `exp` in the past yields a
claim-level error. -/
theorem jwtVerify_expired_reject {algs : List String}
    {audOpt issOpt : Option String} {tokStr : String} {tok : Token}
    {key : String} {sv : String → String → Bool} {now : Int} {e : Int}
    (hc : algs.contains tok.header.alg = true) (hs : sv tokStr key = true)
    (he : tok.claims.exp = some e) (hle : e ≤ now) :
    ∃ er, jwtVerify algs audOpt issOpt tokStr tok key sv now = .error er ∧
      isInvalidClaims er = true := by
  have hx : expViolated tok.claims now = true := by
    simp [expViolated, he, hle]
  unfold jwtVerify
  rw [hc, hs]
  by_cases hn : nbfViolated tok.claims now = true
  · rw [if_neg (by simp), if_neg (by simp), if_pos hn]
    exact ⟨.notBefore, rfl, rfl⟩
  · rw [if_neg (by simp), if_neg (by simp), if_neg hn, if_pos hx]
    exact ⟨.expired, rfl, rfl⟩

/-- Reduction of `verifyToken` on the Azure branch. -/
theorem verifyToken_azure_branch (cfg : Config) (w : World) (now : Int)
    (auth : Option String) (t : String) (tok : Token)
    (hext : extractToken auth = some t) (ht : t ≠ "")
    (hdec : w.decode t = some tok)
    (haz : issuerIsAzure tok.claims.iss = true) :
    verifyToken cfg w now auth =
      match w.azureKeys tok.header.kid with
      | none => .keyCrash "azure"
      | some key =>
        match jwtVerify ["RS256"] cfg.azureAudience none
            t tok key w.sigValid now with
        | .error e => .rejected "azure" e
        | .ok v => .user (.azure v.oid v.tid (azureEmail v)) := by
  have ht' : (t == "") = false := beq_eq_false_iff_ne.mpr ht
  simp [verifyToken, hext, ht', hdec, haz]

/-- Reduction of `verifyToken` on the Auth0 branch. -/
theorem verifyToken_auth0_branch (cfg : Config) (w : World) (now : Int)
    (auth : Option String) (t : String) (tok : Token)
    (hext : extractToken auth = some t) (ht : t ≠ "")
    (hdec : w.decode t = some tok)
    (haz : issuerIsAzure tok.claims.iss = false)
    (ha0 : issuerIsAuth0 cfg tok.claims.iss = true) :
    verifyToken cfg w now auth =
      match w.auth0Keys tok.header.kid with
      | none => .keyCrash "auth0"
      | some key =>
        match jwtVerify ["RS256"] (auth0AudienceOption cfg)
            (some (auth0IssuerOption cfg)) t tok key w.sigValid now with
        | .error e => .rejected "auth0" e
        | .ok v => .user (.auth0 (v.provider.getD "auth0") v) := by
  have ht' : (t == "") = false := beq_eq_false_iff_ne.mpr ht
  simp [verifyToken, hext, ht', hdec, haz, ha0]

/-- The issuer option string of the Auth0 path is never empty, hence always
truthy. -/
theorem truthy_auth0IssuerOption (cfg : Config) :
    truthyS (some (auth0IssuerOption cfg)) = true := by
  simp only [truthyS, auth0IssuerOption, Bool.not_eq_eq_eq_not, Bool.not_true,
    beq_eq_false_iff_ne, ne_eq]
  intro h
  have hlen := congrArg String.length h
  rw [String.length_append, String.length_append] at hlen
  rw [show ("https://").length = 8 from rfl, show ("/").length = 1 from rfl,
    show ("").length = 0 from rfl] at hlen
  omega

/-! The claims. -/

/-- Claim C1: when both issuer paths have an audience configured,
`verifyToken` attaches an identity only for a token that was decoded, whose
header algorithm is RS256, whose signature was cryptographically verified
against the key fetched for the exact `kid` of that token header from the
JWKS of the routed issuer, and whose `aud` and `iss` match the
issuer-specific expected values (Azure: a Microsoft-prefixed issuer and the
configured `AZURE_AUDIENCE`; Auth0: the exact configured issuer string and
the configured audience).  No code path produces an identity from an
unverified token. -/
theorem c1_identity_only_from_verified (cfg : Config) (w : World) (now : Int)
    (auth : Option String) (u : User)
    (hazAud : truthyS cfg.azureAudience = true)
    (ha0Aud : truthyS (auth0AudienceOption cfg) = true)
    (hu : verifyToken cfg w now auth = .user u) :
    ∃ t tok key, extractToken auth = some t ∧ w.decode t = some tok ∧
      tok.header.alg = "RS256" ∧
      ((issuerIsAzure tok.claims.iss = true ∧
        w.azureKeys tok.header.kid = some key ∧
        w.sigValid t key = true ∧
        tok.claims.aud = cfg.azureAudience) ∨
       (issuerIsAzure tok.claims.iss = false ∧
        issuerIsAuth0 cfg tok.claims.iss = true ∧
        w.auth0Keys tok.header.kid = some key ∧
        w.sigValid t key = true ∧
        tok.claims.aud = auth0AudienceOption cfg ∧
        tok.claims.iss = some (auth0IssuerOption cfg))) := by
  cases hext : extractToken auth with
  | none =>
    unfold verifyToken at hu
    simp only [hext] at hu
    exact Outcome.noConfusion hu
  | some t =>
    by_cases ht : t = ""
    · unfold verifyToken at hu
      simp only [hext] at hu
      rw [if_pos (by simp [ht])] at hu
      exact Outcome.noConfusion hu
    · cases hdec : w.decode t with
      | none =>
        unfold verifyToken at hu
        simp only [hext] at hu
        rw [if_neg (by simp [ht])] at hu
        simp only [hdec] at hu
        exact Outcome.noConfusion hu
      | some tok =>
        cases haz : issuerIsAzure tok.claims.iss with
        | true =>
          have hb := verifyToken_azure_branch cfg w now auth t tok hext ht
            hdec haz
          rw [hb] at hu
          cases hk : w.azureKeys tok.header.kid with
          | none =>
            simp only [hk] at hu
            exact Outcome.noConfusion hu
          | some key =>
            simp only [hk] at hu
            cases hjv : jwtVerify ["RS256"] cfg.azureAudience none
                t tok key w.sigValid now with
            | error e =>
              simp only [hjv] at hu
              exact Outcome.noConfusion hu
            | ok v =>
              obtain ⟨_, hcont, hsig, haud, _, _, _⟩ := jwtVerify_ok_facts hjv
              exact ⟨t, tok, key, rfl, hdec, by simpa using hcont,
                .inl ⟨haz, hk, hsig, haud hazAud⟩⟩
        | false =>
          cases ha0 : issuerIsAuth0 cfg tok.claims.iss with
          | true =>
            have hb := verifyToken_auth0_branch cfg w now auth t tok hext ht
              hdec haz ha0
            rw [hb] at hu
            cases hk : w.auth0Keys tok.header.kid with
            | none =>
              simp only [hk] at hu
              exact Outcome.noConfusion hu
            | some key =>
              simp only [hk] at hu
              cases hjv : jwtVerify ["RS256"] (auth0AudienceOption cfg)
                  (some (auth0IssuerOption cfg)) t tok key w.sigValid now with
              | error e =>
                simp only [hjv] at hu
                exact Outcome.noConfusion hu
              | ok v =>
                obtain ⟨_, hcont, hsig, haud, hiss, _, _⟩ :=
                  jwtVerify_ok_facts hjv
                exact ⟨t, tok, key, rfl, hdec, by simpa using hcont,
                  .inr ⟨haz, ha0, hk, hsig, haud ha0Aud,
                    hiss (truthy_auth0IssuerOption cfg)⟩⟩
          | false =>
            unfold verifyToken at hu
            simp only [hext] at hu
            rw [if_neg (by simp [ht])] at hu
            simp only [hdec] at hu
            rw [if_neg (by simp [haz]), if_neg (by simp [ha0])] at hu
            exact Outcome.noConfusion hu

/-- Instantiation of claim C1 on the concrete Azure run that attaches the
identity `u1`. -/
theorem c1_witness :
    ∃ t tok key, extractToken (some "Bearer tk1") = some t ∧
      w1.decode t = some tok ∧ tok.header.alg = "RS256" ∧
      ((issuerIsAzure tok.claims.iss = true ∧
        w1.azureKeys tok.header.kid = some key ∧
        w1.sigValid t key = true ∧
        tok.claims.aud = cfg1.azureAudience) ∨
       (issuerIsAzure tok.claims.iss = false ∧
        issuerIsAuth0 cfg1 tok.claims.iss = true ∧
        w1.auth0Keys tok.header.kid = some key ∧
        w1.sigValid t key = true ∧
        tok.claims.aud = auth0AudienceOption cfg1 ∧
        tok.claims.iss = some (auth0IssuerOption cfg1))) :=
  c1_identity_only_from_verified cfg1 w1 0 (some "Bearer tk1") u1
    (by decide) (by decide) (by decide)

/-- Claim C2 (code bug): with `AZURE_AUDIENCE` unset, `verifyToken` does not
fail closed with a configuration error; no configuration check exists on
this path, the `jsonwebtoken` audience check is silently skipped because the
option is falsy, and an identity is attached to a validly signed token whose
`aud` was never compared against anything. -/
theorem c2_missing_config_accepts_unchecked_aud :
    cfg2.azureAudience = none ∧
    verifyToken cfg2 w2 0 (some "Bearer tk2") =
      .user (.azure (some "oid2") (some "tid2") none) :=
  ⟨rfl, by decide⟩

/-- Claim C3: a decoded token whose `iss` neither starts with
`https://login.microsoftonline.com/` nor with `https://sts.windows.net/`
nor contains the configured Auth0 domain is answered with the
unknown-issuer 401, regardless of key material and signature validity
(neither appears among the hypotheses). -/
theorem c3_unknown_issuer_rejected (cfg : Config) (w : World) (now : Int)
    (auth : Option String) (t : String) (tok : Token) (d : String)
    (hcfg : cfg.auth0Domain = some d)
    (hext : extractToken auth = some t) (ht : t ≠ "")
    (hdec : w.decode t = some tok)
    (hiss : ∀ s, tok.claims.iss = some s →
      strStarts s "https://login.microsoftonline.com/" = false ∧
      strStarts s "https://sts.windows.net/" = false ∧
      strHasSub s d = false) :
    verifyToken cfg w now auth = .unknownIssuer := by
  have haz : issuerIsAzure tok.claims.iss = false := by
    cases hi : tok.claims.iss with
    | none => rfl
    | some s =>
      obtain ⟨h1, h2, _⟩ := hiss s hi
      simp [issuerIsAzure, h1, h2]
  have ha0 : issuerIsAuth0 cfg tok.claims.iss = false := by
    cases hi : tok.claims.iss with
    | none => rfl
    | some s =>
      obtain ⟨_, _, h3⟩ := hiss s hi
      simp [issuerIsAuth0, auth0DomainStr, hcfg, h3]
  unfold verifyToken
  simp only [hext]
  rw [if_neg (by simp [ht])]
  simp only [hdec]
  rw [if_neg (by simp [haz]), if_neg (by simp [ha0])]

/-- Instantiation of claim C3 on a token with issuer
`https://evil.example.com/` in a world where every signature is valid. -/
theorem c3_witness :
    verifyToken cfg3 w3 0 (some "Bearer tk3") = .unknownIssuer :=
  c3_unknown_issuer_rejected cfg3 w3 0 (some "Bearer tk3") "tk3" tok3
    "example.auth0.com" rfl (by decide) (by decide) (by decide)
    (fun s hs => by
      have hs' : some "https://evil.example.com/" = some s := hs
      injection hs' with h
      subst h
      decide)

/-- Claim C4 (code bug): when the `kid` of the token header is not found in
the JWKS, the key callback ignores the error argument and dereferences an
undefined key, so the middleware throws an uncaught TypeError and sends no
response, instead of failing with a key-resolution error as the spec
requires. -/
theorem c4_unknown_kid_crashes :
    verifyToken cfg4 w4 0 (some "Bearer tk4") = .keyCrash "azure" := by
  decide

/-- Claim C5: on both issuer paths, a decoded token whose header algorithm
is not RS256 never yields an identity, and whenever it is rejected by the
verification call the recorded error is the invalid-algorithm error. -/
theorem c5_non_rs256_rejected (cfg : Config) (w : World) (now : Int)
    (auth : Option String) (t : String) (tok : Token)
    (hext : extractToken auth = some t) (ht : t ≠ "")
    (hdec : w.decode t = some tok)
    (halg : tok.header.alg ≠ "RS256") :
    (∀ u, verifyToken cfg w now auth ≠ .user u) ∧
    (∀ p e, verifyToken cfg w now auth = .rejected p e →
      e = .invalidAlgorithm) := by
  have hcont : (["RS256"] : List String).contains tok.header.alg = false := by
    simp [halg]
  cases haz : issuerIsAzure tok.claims.iss with
  | true =>
    have hb := verifyToken_azure_branch cfg w now auth t tok hext ht hdec haz
    cases hk : w.azureKeys tok.header.kid with
    | none =>
      simp only [hk] at hb
      refine ⟨fun u hu => ?_, fun p e hpe => ?_⟩
      · rw [hb] at hu
        exact Outcome.noConfusion hu
      · rw [hb] at hpe
        exact Outcome.noConfusion hpe
    | some key =>
      simp only [hk, jwtVerify_alg_reject hcont] at hb
      refine ⟨fun u hu => ?_, fun p e hpe => ?_⟩
      · rw [hb] at hu
        exact Outcome.noConfusion hu
      · rw [hb] at hpe
        injection hpe with h1 h2
        exact h2.symm
  | false =>
    cases ha0 : issuerIsAuth0 cfg tok.claims.iss with
    | true =>
      have hb := verifyToken_auth0_branch cfg w now auth t tok hext ht hdec
        haz ha0
      cases hk : w.auth0Keys tok.header.kid with
      | none =>
        simp only [hk] at hb
        refine ⟨fun u hu => ?_, fun p e hpe => ?_⟩
        · rw [hb] at hu
          exact Outcome.noConfusion hu
        · rw [hb] at hpe
          exact Outcome.noConfusion hpe
      | some key =>
        simp only [hk, jwtVerify_alg_reject hcont] at hb
        refine ⟨fun u hu => ?_, fun p e hpe => ?_⟩
        · rw [hb] at hu
          exact Outcome.noConfusion hu
        · rw [hb] at hpe
          injection hpe with h1 h2
          exact h2.symm
    | false =>
      have hb : verifyToken cfg w now auth = .unknownIssuer := by
        unfold verifyToken
        simp only [hext]
        rw [if_neg (by simp [ht])]
        simp only [hdec]
        rw [if_neg (by simp [haz]), if_neg (by simp [ha0])]
      refine ⟨fun u hu => ?_, fun p e hpe => ?_⟩
      · rw [hb] at hu
        exact Outcome.noConfusion hu
      · rw [hb] at hpe
        exact Outcome.noConfusion hpe

/-- Instantiation of claim C5: the HS256 token `tok5` does not yield an
identity. -/
theorem c5_witness :
    verifyToken cfg5 w5 0 (some "Bearer tk5") ≠
      .user (.azure none none none) :=
  (c5_non_rs256_rejected cfg5 w5 0 (some "Bearer tk5") "tk5" tok5
    (by decide) (by decide) (by decide) (by decide)).1 (.azure none none none)

/-- Claim C6 is false as stated: an otherwise valid Auth0 token that carries
no `exp` claim at all is accepted (here at clock 99999), so success does not
require `exp` to be in the future. -/
theorem c6_counterexample :
    verifyToken cfg6 w6 99999 (some "Bearer tk6") =
      .user (.auth0 "auth0" tok6.claims) ∧
    tok6.claims.exp = none :=
  ⟨by decide, rfl⟩

/-- Claim C6 (amended): on the Auth0 path with a resolvable key, success
requires a valid signature, an RS256 header, `iss` equal to the configured
issuer string, `aud` equal to the configured audience whenever one is
configured, and any `exp` claim that is present to be in the future; and a
token with `exp` in the past is rejected with a claim-level (InvalidClaims)
error.  Tokens with no `exp` claim are not subject to expiry checking. -/
theorem c6_amended_auth0_conditions (cfg : Config) (w : World) (now : Int)
    (auth : Option String) (t : String) (tok : Token) (key : String)
    (hext : extractToken auth = some t) (ht : t ≠ "")
    (hdec : w.decode t = some tok)
    (haz : issuerIsAzure tok.claims.iss = false)
    (ha0 : issuerIsAuth0 cfg tok.claims.iss = true)
    (hkey : w.auth0Keys tok.header.kid = some key) :
    (∀ u, verifyToken cfg w now auth = .user u →
      w.sigValid t key = true ∧ tok.header.alg = "RS256" ∧
      tok.claims.iss = some (auth0IssuerOption cfg) ∧
      (truthyS (auth0AudienceOption cfg) = true →
        tok.claims.aud = auth0AudienceOption cfg) ∧
      (∀ e, tok.claims.exp = some e → now < e)) ∧
    (∀ e, tok.claims.exp = some e → e ≤ now →
      tok.header.alg = "RS256" → w.sigValid t key = true →
      ∃ er, verifyToken cfg w now auth = .rejected "auth0" er ∧
        isInvalidClaims er = true) := by
  have hb := verifyToken_auth0_branch cfg w now auth t tok hext ht hdec haz ha0
  simp only [hkey] at hb
  constructor
  · intro u hu
    rw [hb] at hu
    cases hjv : jwtVerify ["RS256"] (auth0AudienceOption cfg)
        (some (auth0IssuerOption cfg)) t tok key w.sigValid now with
    | error e =>
      simp only [hjv] at hu
      exact Outcome.noConfusion hu
    | ok v =>
      obtain ⟨_, hcont, hsig, haud, hiss, _, hexp⟩ := jwtVerify_ok_facts hjv
      exact ⟨hsig, by simpa using hcont,
        hiss (truthy_auth0IssuerOption cfg), haud, hexp⟩
  · intro e he hle halg hsig
    obtain ⟨er, her, hic⟩ :=
      @jwtVerify_expired_reject ["RS256"] (auth0AudienceOption cfg)
        (some (auth0IssuerOption cfg)) t tok key w.sigValid now e
        (by simp [halg]) hsig he hle
    refine ⟨er, ?_, hic⟩
    rw [hb]
    simp only [her]

/-- Instantiation of amended claim C6: the expired Auth0 token `tok6e` is
rejected with a claim-level error. -/
theorem c6_witness :
    ∃ er, verifyToken cfg6 w6e 100 (some "Bearer tk6e") =
      .rejected "auth0" er ∧ isInvalidClaims er = true :=
  (c6_amended_auth0_conditions cfg6 w6e 100 (some "Bearer tk6e") "tk6e" tok6e
    "PK6e" (by decide) (by decide) (by decide) (by decide) (by decide)
    (by decide)).2 50 rfl (by decide) rfl (by decide)

/-- Claim C7: an Azure-routed token with resolvable key, RS256 header and
valid signature whose `aud` differs from the configured `AZURE_AUDIENCE` is
rejected with a claim-level (InvalidClaims) error; no identity is
produced. -/
theorem c7_azure_aud_mismatch_invalid_claims (cfg : Config) (w : World)
    (now : Int) (auth : Option String) (t : String) (tok : Token)
    (key a : String)
    (hext : extractToken auth = some t) (ht : t ≠ "")
    (hdec : w.decode t = some tok)
    (haz : issuerIsAzure tok.claims.iss = true)
    (hcfg : cfg.azureAudience = some a) (ha : a ≠ "")
    (haud : tok.claims.aud ≠ some a)
    (hkey : w.azureKeys tok.header.kid = some key)
    (halg : tok.header.alg = "RS256") (hsig : w.sigValid t key = true) :
    ∃ e, verifyToken cfg w now auth = .rejected "azure" e ∧
      isInvalidClaims e = true := by
  have hb := verifyToken_azure_branch cfg w now auth t tok hext ht hdec haz
  simp only [hkey] at hb
  have hc : (["RS256"] : List String).contains tok.header.alg = true := by
    simp [halg]
  have hmis : tok.claims.aud ≠ cfg.azureAudience := by
    rw [hcfg]
    exact haud
  have hta : truthyS cfg.azureAudience = true := by
    simp [truthyS, hcfg, ha]
  obtain ⟨e, he, hic⟩ :=
    @jwtVerify_aud_reject ["RS256"] cfg.azureAudience none t tok key
      w.sigValid now hc hsig hta hmis
  simp only [he] at hb
  exact ⟨e, hb, hic⟩

/-- Instantiation of claim C7 on the validly signed token `tok7`, whose
audience does not match api://app7. -/
theorem c7_witness :
    ∃ e, verifyToken cfg7 w7 0 (some "Bearer tk7") = .rejected "azure" e ∧
      isInvalidClaims e = true :=
  c7_azure_aud_mismatch_invalid_claims cfg7 w7 0 (some "Bearer tk7") "tk7"
    tok7 "PK7" "api://app7" (by decide) (by decide) (by decide) (by decide)
    rfl (by decide) (by decide) (by decide) rfl (by decide)

/-- Claim C8 is false as stated: a defined but empty `preferred_username`
is skipped by the JavaScript truthiness fallback, so the email of the
resulting identity is the `upn` value rather than the first defined value. -/
theorem c8_counterexample :
    verifyToken cfg8 w8 0 (some "Bearer tk8") =
      .user (.azure (some "oid8") (some "tid8") (some "bob@contoso.com")) ∧
    tok8.claims.preferred_username = some "" :=
  ⟨by decide, rfl⟩

/-- Claim C8 (amended): a decoded Azure-routed token with resolvable key,
RS256 header, valid signature, `aud` equal to the configured
`AZURE_AUDIENCE`, and satisfied `nbf`/`exp` yields the identity of shape
provider azure with `oid`, `tid`, and email equal to the first defined and
non-empty value among `preferred_username`, `upn`, `unique_name`, in that
priority order (`azureEmail`). -/
theorem c8_amended_azure_identity_shape (cfg : Config) (w : World)
    (now : Int) (auth : Option String) (t : String) (tok : Token)
    (key a : String)
    (hext : extractToken auth = some t) (ht : t ≠ "")
    (hdec : w.decode t = some tok)
    (haz : issuerIsAzure tok.claims.iss = true)
    (hcfg : cfg.azureAudience = some a) (_ha : a ≠ "")
    (haud : tok.claims.aud = some a)
    (hkey : w.azureKeys tok.header.kid = some key)
    (halg : tok.header.alg = "RS256") (hsig : w.sigValid t key = true)
    (hnbf : ∀ n, tok.claims.nbf = some n → ¬ now < n)
    (hexp : ∀ e, tok.claims.exp = some e → now < e) :
    verifyToken cfg w now auth =
      .user (.azure tok.claims.oid tok.claims.tid (azureEmail tok.claims)) := by
  have hb := verifyToken_azure_branch cfg w now auth t tok hext ht hdec haz
  simp only [hkey] at hb
  have hn : nbfViolated tok.claims now = false := by
    cases hnb : tok.claims.nbf with
    | none => simp [nbfViolated, hnb]
    | some n => simp [nbfViolated, hnb, hnbf n hnb]
  have hx : expViolated tok.claims now = false := by
    cases hxe : tok.claims.exp with
    | none => simp [expViolated, hxe]
    | some e =>
      simp only [expViolated, hxe, decide_eq_false_iff_not]
      exact Int.not_le.mpr (hexp e hxe)
  have hok := @jwtVerify_ok_intro ["RS256"] cfg.azureAudience none t tok key
    w.sigValid now (by simp [halg]) hsig hn hx
    (fun _ => by rw [hcfg]; exact haud)
    (fun hfalse => absurd hfalse (by simp [truthyS]))
  simp only [hok] at hb
  exact hb

/-- Instantiation of amended claim C8 on `tok8`, whose email falls through
the empty `preferred_username` to `upn`. -/
theorem c8_witness :
    verifyToken cfg8 w8 0 (some "Bearer tk8") =
      .user (.azure tok8.claims.oid tok8.claims.tid (azureEmail tok8.claims)) :=
  c8_amended_azure_identity_shape cfg8 w8 0 (some "Bearer tk8") "tk8" tok8
    "PK8" "api://app8" (by decide) (by decide) (by decide) (by decide) rfl
    (by decide) rfl (by decide) rfl (by decide)
    (fun n hn => absurd (show (none : Option Int) = some n from hn)
      (by simp))
    (fun e he => absurd (show (none : Option Int) = some e from he)
      (by simp))

/-- Claim C9 is false as stated: the header value `NotBearer xyz` is not
answered with the missing-token response; the scheme word is never
inspected, the second segment xyz is treated as the candidate token, and
the request fails with the malformed-token response instead. -/
theorem c9_counterexample :
    verifyToken cfg9 w9 0 (some "NotBearer xyz") = .malformedToken ∧
    verifyToken cfg9 w9 0 (some "NotBearer xyz") ≠ .missingToken :=
  ⟨by decide, by decide⟩

/-- Claim C9 (amended): the missing-token response occurs exactly when the
second space-separated segment of the Authorization header is absent or
empty.  In particular `Bearer ` (empty second segment) and a missing header
yield it, while any header with a non-empty second segment, whatever its
scheme word, proceeds to decoding. -/
theorem c9_amended_missing_token_iff (cfg : Config) (w : World) (now : Int)
    (auth : Option String) :
    verifyToken cfg w now auth = .missingToken ↔
      (extractToken auth).getD "" = "" := by
  cases hext : extractToken auth with
  | none =>
    have hb : verifyToken cfg w now auth = .missingToken := by
      unfold verifyToken
      simp only [hext]
    simp [hb]
  | some t =>
    by_cases ht : t = ""
    · subst ht
      have hb : verifyToken cfg w now auth = .missingToken := by
        unfold verifyToken
        simp only [hext]
        rw [if_pos (by simp)]
      simp [hb]
    · simp only [Option.getD_some]
      constructor
      · intro h
        exfalso
        unfold verifyToken at h
        simp only [hext] at h
        rw [if_neg (by simp [ht])] at h
        cases hdec : w.decode t with
        | none =>
          simp only [hdec] at h
          exact Outcome.noConfusion h
        | some tok =>
          simp only [hdec] at h
          repeat' split at h
          all_goals exact Outcome.noConfusion h
      · intro h
        exact absurd h ht

/-- Claim C10: on the Auth0 path the verified claims are spread into the
identity after the provider tag, so the provider field of any identity the
gate attaches on that path equals the `provider` claim of the token when one
is present, and the default auth0 only otherwise. -/
theorem c10_provider_claim_overrides (cfg : Config) (w : World) (now : Int)
    (auth : Option String) (p : String) (c : Claims)
    (h : verifyToken cfg w now auth = .user (.auth0 p c)) :
    p = c.provider.getD "auth0" := by
  unfold verifyToken at h
  repeat' split at h
  all_goals try exact Outcome.noConfusion h
  · injection h with hu
    exact User.noConfusion hu
  · injection h with hu
    injection hu with h1 h2
    subst h2
    exact h1.symm

/-- Instantiation of claim C10: the token `tokX`, which carries the claim
`provider = "pwned"`, produces an identity whose provider field is pwned,
not auth0. -/
theorem c10_witness :
    verifyToken cfgX wX 0 (some "Bearer tkX") =
      .user (.auth0 "pwned" tokX.claims) ∧
    "pwned" = tokX.claims.provider.getD "auth0" :=
  ⟨by decide,
    c10_provider_claim_overrides cfgX wX 0 (some "Bearer tkX") "pwned"
      tokX.claims (by decide)⟩

end Server
